import Mathlib

/-!
Verification of the geometry-construction core of `osmnx/geometries.py`.

The Python module is shallowly embedded: each `_parse_*` / `_assemble_*` /
`_subtract_*` / `_buffer_*` / `_filter_*` function becomes a Lean definition
over an explicit data model.  Python dicts become insertion-ordered
association lists with dict assignment semantics (`dset`), exceptions become
`Except PyErr`, and the external geometry kernel (shapely) and spatial index
are passed in as an `Oracles` record of primitives, exactly as the spec
declares them out of scope ("delegated to a geometry-kernel dependency
treated as an external primitive").  Coordinates are rationals; no claim
involves floating-point arithmetic.
-/

namespace Osmnx

/-- A longitude/latitude pair (the payload of the Coordinate Table). -/
structure Coord where
  lon : Rat
  lat : Rat
deriving DecidableEq, Repr

/-- A polygon: one shell ring plus zero or more hole rings (shapely `Polygon`). -/
structure Poly where
  shell : List Coord
  holes : List (List Coord)
deriving DecidableEq, Repr

/-- The closed sum of geometry variants produced by the module
(shapely `Point` / `LineString` / `MultiLineString` / `Polygon` / `MultiPolygon`).
An empty `lineString` / `polygon` shell / `multiPolygon` is the Empty marker. -/
inductive Geom where
  | point (c : Coord)
  | lineString (cs : List Coord)
  | multiLineString (parts : List (List Coord))
  | polygon (p : Poly)
  | multiPolygon (ps : List Poly)
deriving DecidableEq, Repr

/-- shapely's `geom_type` attribute. -/
def Geom.geomType : Geom → String
  | .point _ => "Point"
  | .lineString _ => "LineString"
  | .multiLineString _ => "MultiLineString"
  | .polygon _ => "Polygon"
  | .multiPolygon _ => "MultiPolygon"

/-- shapely's `is_empty` predicate on the variants the module constructs. -/
def Geom.isEmpty : Geom → Bool
  | .point _ => false
  | .lineString cs => cs.isEmpty
  | .multiLineString parts => parts.isEmpty
  | .polygon p => p.shell.isEmpty
  | .multiPolygon ps => ps.isEmpty

/-- A value stored in a record cell / GeoDataFrame cell: an OSM tag string,
an id, a node-id list (way `nodes` / relation `ways`), the nested node
lists a relation stores under `nodes`, or a geometry. -/
inductive CellVal where
  | s (v : String)
  | n (v : Nat)
  | nl (v : List Nat)
  | nlll (v : List (List (List Nat)))
  | geom (g : Geom)
deriving DecidableEq, Repr

/-- A Python dict with string keys, as an insertion-ordered association list. -/
abbrev Dict := List (String × CellVal)

/-- Python dict assignment `d[k] = v`: overwrite in place if the key exists,
otherwise append (insertion order preserved). -/
def dset : Dict → String → CellVal → Dict
  | [], k, v => [(k, v)]
  | (k0, v0) :: rest, k, v =>
    if k0 = k then (k, v) :: rest else (k0, v0) :: dset rest k v

/-- Copy a tag map into a record dict, one assignment per tag
(`for tag in element["tags"]: d[tag] = element["tags"][tag]`). -/
def dsetTags (d : Dict) (tags : List (String × String)) : Dict :=
  tags.foldl (fun acc kv => dset acc kv.1 (CellVal.s kv.2)) d

/-- A member entry of a relation's `members` list. -/
structure Member where
  mtype : String
  ref : Nat
  role : String
deriving DecidableEq, Repr

/-- A decoded OSM element.  `tags = none` models an element without a
`"tags"` key; `tags = some []` models `tags = {}`.  The type-specific
fields are meaningful only for the matching `etype`. -/
structure Element where
  etype : String
  id : Nat
  tags : Option (List (String × String))
  lat : Rat
  lon : Rat
  nds : List Nat
  members : List Member
deriving DecidableEq, Repr

/-- The unique id `f"{element['type']}/{element['id']}"`. -/
def uniqueId (el : Element) : String := el.etype ++ "/" ++ toString el.id

/-- The mode of one key of the `polygon_features` rule table. -/
inductive PFMode where
  | all
  | blocklist
  | passlist
deriving DecidableEq, Repr

/-- One entry of the `polygon_features` rule table: a mode and its value set. -/
structure PFRule where
  mode : PFMode
  values : List String
deriving DecidableEq, Repr

/-- The rule table `polygon_features` (key, mode, value set). -/
abbrev PFTable := List (String × PFRule)

/-- A value of the user tag-selection spec: `True`, a single string, or a
list of strings (the three documented forms). -/
inductive TagVal where
  | tru
  | exact (v : String)
  | oneOf (vs : List String)
deriving DecidableEq, Repr

/-- A user tag-selection spec (the `tags` dict of the entry points). -/
abbrev TagsSpec := List (String × TagVal)

/-- Python exceptions the module can raise or propagate. -/
inductive PyErr where
  | emptyOverpass
  | keyError (missingNode : Nat)
  | keyErrorStr (missingKey : String)
  | attributeError
  | typeError
  | topologicalError
  | indexError
deriving DecidableEq, Repr

/-- The external primitives the module delegates to (shapely operations and
the spatial-index query).  `difference` may fail with a topology error. -/
structure Oracles where
  linemerge : List Geom → Geom
  polygonize : Geom → List Poly
  within : Geom → Geom → Bool
  difference : Geom → Geom → Except Unit Geom
  buffer0 : Geom → Geom
  isValid : Geom → Bool
  intersects : Geom → Geom → Bool

/-- The Coordinate Table: node id to coordinate, dict semantics. -/
abbrev Coords := List (Nat × Coord)

/-- Dict assignment for the Coordinate Table (`coords[element["id"]] = coord`). -/
def cset : Coords → Nat → Coord → Coords
  | [], k, v => [(k, v)]
  | (k0, v0) :: rest, k, v =>
    if k0 = k then (k, v) :: rest else (k0, v0) :: cset rest k v

/-- `_parse_node_to_point`: osmid, element_type, the tags, then the Point. -/
def parseNodeToPoint (el : Element) : Dict :=
  let d0 := dset (dset [] "osmid" (.n el.id)) "element_type" (.s "node")
  let d1 := match el.tags with
    | some ts => dsetTags d0 ts
    | none => d0
  dset d1 "geometry" (.geom (.point ⟨el.lon, el.lat⟩))

/-- Resolve a node-id list against the Coordinate Table; the error is the
first missing node id (the `KeyError` payload). -/
def resolveCoords (coords : Coords) : List Nat → Except Nat (List Coord)
  | [] => .ok []
  | n :: rest =>
    match coords.lookup n with
    | some c => (resolveCoords coords rest).map (fun cs => c :: cs)
    | none => .error n

/-- Model of the kernel's `LineString` constructor: rejects fewer than two
coordinates with a `ValueError`. -/
def mkLineString (cs : List Coord) : Except Unit Geom :=
  if cs.length ≥ 2 then .ok (.lineString cs) else .error ()

/-- Model of the kernel's `Polygon` constructor: rejects a degenerate ring
(fewer than four closed-ring coordinates) with a `ValueError`. -/
def mkPolygonRing (cs : List Coord) : Except Unit Geom :=
  if cs.length ≥ 4 then .ok (.polygon ⟨cs, []⟩) else .error ()

/-- The per-key test of `_closed_way_is_linestring_or_polygon`'s loop body:
look the key up in the rule table and in the element's tags, then apply the
`all` / `blocklist` / `passlist` branch. -/
def yieldsPolygonStep (pf : PFTable) (tags : List (String × String)) (k : String) : Bool :=
  match pf.lookup k, tags.lookup k with
  | some rule, some v =>
    match rule.mode with
    | PFMode.all => true
    | PFMode.blocklist => decide (v ∉ rule.values)
    | PFMode.passlist => decide (v ∈ rule.values)
  | _, _ => false

/-- `_closed_way_is_linestring_or_polygon`: LineString for missing tags or
`area=no`, otherwise the or-accumulated rule-table verdict over the keys
shared between the tags and the rule table. -/
def closedWayIsPolygon (otags : Option (List (String × String))) (pf : PFTable) : Bool :=
  match otags with
  | none => false
  | some tags =>
    if tags.lookup "area" = some "no" then false
    else
      let ikeys := ((tags.map Prod.fst).dedup).filter (fun k => (pf.lookup k).isSome)
      ikeys.foldl (fun acc k => acc || yieldsPolygonStep pf tags k) false

/-- `_parse_way_to_linestring_or_polygon`.  The open-way branch catches the
`KeyError` of a missing node id (empty LineString); the closed-way branches
catch only the constructor's `ValueError`, so there a missing node id
propagates as an uncaught `KeyError`. -/
def parseWay (el : Element) (coords : Coords) (pf : PFTable) : Except PyErr Dict :=
  match el.nds with
  | [] => .error .indexError
  | n0 :: rest =>
    let nds := n0 :: rest
    let b0 := dset (dset (dset [] "osmid" (.n el.id)) "element_type" (.s "way")) "nodes" (.nl nds)
    let base := match el.tags with
      | some ts => dsetTags b0 ts
      | none => b0
    if nds.getLast? ≠ some n0 then
      -- open way: `except KeyError` yields an empty LineString
      let geometry := match resolveCoords coords nds with
        | .ok cs => Geom.lineString cs
        | .error _ => Geom.lineString []
      .ok (dset base "geometry" (.geom geometry))
    else
      let isPoly := closedWayIsPolygon el.tags pf
      match resolveCoords coords nds with
      | .error missing => .error (.keyError missing)
      | .ok cs =>
        let geometry :=
          if isPoly then
            match mkPolygonRing cs with
            | .ok g => g
            | .error _ => Geom.polygon ⟨[], []⟩
          else
            match mkLineString cs with
            | .ok g => g
            | .error _ => Geom.lineString []
        .ok (dset base "geometry" (.geom geometry))

/-- The four role/shape buckets of `_assemble_multipolygon_component_polygons`. -/
structure Buckets where
  outerPolys : List Poly
  innerPolys : List Poly
  outerLines : List (List Coord)
  innerLines : List (List Coord)
deriving DecidableEq, Repr

/-- The geometry-table key of a member way (`f"way/{member['ref']}"`). -/
def wayKey (ref : Nat) : String := "way/" ++ toString ref

/-- One iteration of the member loop of
`_assemble_multipolygon_component_polygons`: way members with role `outer`
or `inner` are sorted by their prior geometry's type; other roles and
non-way members are skipped.  Subscripting a missing member (`None`) or a
record without a geometry raises, mirroring Python's dynamic errors. -/
def bucketStep (geoms : List (String × Dict)) (acc : Buckets) (m : Member) :
    Except PyErr Buckets :=
  if m.mtype = "way" then
    if m.role = "outer" ∨ m.role = "inner" then
      match geoms.lookup (wayKey m.ref) with
      | none => .error .typeError
      | some d =>
        match d.lookup "geometry" with
        | some (.geom gm) =>
          .ok (match gm, m.role == "outer" with
            | .polygon p, true => ⟨acc.outerPolys ++ [p], acc.innerPolys, acc.outerLines, acc.innerLines⟩
            | .polygon p, false => ⟨acc.outerPolys, acc.innerPolys ++ [p], acc.outerLines, acc.innerLines⟩
            | .lineString cs, true => ⟨acc.outerPolys, acc.innerPolys, acc.outerLines ++ [cs], acc.innerLines⟩
            | .lineString cs, false => ⟨acc.outerPolys, acc.innerPolys, acc.outerLines, acc.innerLines ++ [cs]⟩
            | _, _ => acc)
        | some _ => .error .attributeError
        | none => .error (.keyErrorStr "geometry")
    else .ok acc
  else .ok acc

/-- The polygons contributed by a line-merge result: a single `LineString`
is polygonized directly, a `MultiLineString` component-wise; anything else
(including an empty merge result) contributes nothing. -/
def lineContribution (O : Oracles) (merged : Geom) : List Poly :=
  match merged with
  | .lineString _ => O.polygonize merged
  | .multiLineString parts => (parts.map (fun l => O.polygonize (.lineString l))).flatten
  | _ => []

/-- `_assemble_multipolygon_component_polygons`: bucket the members, then
line-merge and polygonize the outer and inner linestring fragments into
their polygon buckets.  Returns (outer polygons, inner polygons). -/
def assembleComponentPolys (O : Oracles) (el : Element) (geoms : List (String × Dict)) :
    Except PyErr (List Poly × List Poly) :=
  match el.members.foldlM (bucketStep geoms) ⟨[], [], [], []⟩ with
  | .error e => .error e
  | .ok bk =>
    let op := bk.outerPolys ++ lineContribution O (O.linemerge (bk.outerLines.map Geom.lineString))
    let ip := bk.innerPolys ++ lineContribution O (O.linemerge (bk.innerLines.map Geom.lineString))
    .ok (op, ip)

/-- The inner-polygon step of `_subtract_inner_polygons_from_outer_polygons`:
if the inner polygon lies within the running shell, take the difference;
on a topology error retry once with both operands zero-buffered — a failure
of that retry is uncaught and propagates. -/
def subtractStep (O : Oracles) (acc : Geom) (inner : Geom) : Except PyErr Geom :=
  if O.within inner acc then
    match O.difference acc inner with
    | .ok g => .ok g
    | .error _ =>
      match O.difference (O.buffer0 acc) (O.buffer0 inner) with
      | .ok g => .ok g
      | .error _ => .error .topologicalError
  else .ok acc

/-- Fold every inner polygon into one outer shell. -/
def subtractOuter (O : Oracles) (inners : List Poly) (op : Poly) : Except PyErr Geom :=
  inners.foldlM (fun acc ip => subtractStep O acc (.polygon ip)) (Geom.polygon op)

/-- The `outer_polygons_with_holes` list: each subtracted shell contributes
its polygon, the components of a `MultiPolygon` result, or nothing. -/
def holedPolys (O : Oracles) (outers inners : List Poly) : Except PyErr (List Poly) :=
  outers.foldlM (fun hl op =>
    match subtractOuter O inners op with
    | .error e => .error e
    | .ok g =>
      .ok (hl ++ (match g with
        | .polygon p => [p]
        | .multiPolygon ps => ps
        | _ => []))) []

/-- `_subtract_inner_polygons_from_outer_polygons` (the source's `element`
argument, used only for log messages, is dropped): exactly one resulting
shell-with-holes is returned as that Polygon, otherwise a MultiPolygon over
the list (the empty list gives the empty-MultiPolygon marker). -/
def subtract (O : Oracles) (outers inners : List Poly) : Except PyErr Geom :=
  match holedPolys O outers inners with
  | .error e => .error e
  | .ok l =>
    .ok (match l with
      | [p] => .polygon p
      | _ => .multiPolygon l)

/-- All-or-nothing traversal of a list under a partial function (the
`try`-wrapped list comprehensions: one `KeyError` aborts the whole
comprehension). -/
def optionMapAll {α β : Type} (f : α → Option β) : List α → Option (List β)
  | [] => some []
  | a :: t =>
    match f a with
    | none => none
    | some b => (optionMapAll f t).map (fun bs => b :: bs)

/-- The base record of `_parse_relation_to_multipolygon` before geometry
assembly: osmid, element_type, the member-way refs under `ways`, the tags. -/
def relationBase (el : Element) : Dict :=
  let refs := (el.members.filter (fun m => m.mtype = "way")).map Member.ref
  let b0 := dset (dset [] "osmid" (.n el.id)) "element_type" (.s "relation")
  let b1 := dset b0 "ways" (.nl refs)
  match el.tags with
  | some ts => dsetTags b1 ts
  | none => b1

/-- `_parse_relation_to_multipolygon`.  If any member way is absent from the
geometry table, the `KeyError` is caught and the whole relation's geometry
becomes the empty MultiPolygon.  Otherwise the member node lists are stored,
the component polygons assembled, and the holes subtracted (whose topology
errors propagate). -/
def parseRelation (O : Oracles) (el : Element) (geoms : List (String × Dict)) :
    Except PyErr Dict :=
  let refs := (el.members.filter (fun m => m.mtype = "way")).map Member.ref
  let base := relationBase el
  match optionMapAll (fun rf => geoms.lookup (wayKey rf)) refs with
  | none => .ok (dset base "geometry" (.geom (.multiPolygon [])))
  | some memberWays =>
    match optionMapAll (fun d =>
        match d.lookup "nodes" with
        | some (.nl ns) => some ns
        | _ => none) memberWays with
    | none => .error (.keyErrorStr "nodes")
    | some nodesLists =>
      let d1 := dset base "nodes" (.nlll [nodesLists])
      match assembleComponentPolys O el geoms with
      | .error e => .error e
      | .ok buckets =>
        match subtract O buckets.1 buckets.2 with
        | .error e => .error e
        | .ok geometry => .ok (dset d1 "geometry" (.geom geometry))

/-- A GeoDataFrame row: the index label and the cells. -/
abbrev Row := CellVal × Dict

/-- The assembled geometry table. -/
abbrev GDF := List Row

/-- The table's column set (the union of the rows' keys; a column with no
cell in any row does not exist, which also models `dropna(axis="columns",
how="all")` as the identity on this representation). -/
def colsOf (g : GDF) : List String :=
  (g.foldl (fun acc r => acc ++ r.2.map Prod.fst) []).dedup

/-- One requested tag key's per-row filter: `True` is `notna`, a string is
exact equality, a list is membership; a null (absent) cell and a non-string
cell match no string. -/
def rowMatchesKey (cells : Dict) (k : String) (tv : TagVal) : Bool :=
  match tv with
  | .tru => (cells.lookup k).isSome
  | .exact v =>
    match cells.lookup k with
    | some (.s x) => x = v
    | _ => false
  | .oneOf vs =>
    match cells.lookup k with
    | some (.s x) => decide (x ∈ vs)
    | _ => false

/-- The combined tag filter: pass-all when no spec or an empty (falsy) spec
is supplied, otherwise the or-accumulation over the requested keys that are
present as columns. -/
def tagCombined (cols : List String) (ts : Option TagsSpec) (cells : Dict) : Bool :=
  match ts with
  | none => true
  | some l =>
    if l.isEmpty then true
    else
      (l.filter (fun kv => decide (kv.1 ∈ cols))).foldl
        (fun acc kv => acc || rowMatchesKey cells kv.1 kv.2) false

/-- The spatial filter: pass-all when no boundary is supplied, otherwise the
spatial-index intersection primitive on the row's geometry. -/
def polyFilterRow (O : Oracles) (p : Option Geom) (r : Row) : Bool :=
  match p with
  | none => true
  | some bp =>
    match r.2.lookup "geometry" with
    | some (.geom g) => O.intersects g bp
    | _ => false

/-- The rows retained by `_filter_gdf_by_polygon_and_tags`: spatial filter
AND tag filter. -/
def filterRowsKept (O : Oracles) (g : GDF) (p : Option Geom) (ts : Option TagsSpec) :
    List Row :=
  g.filter (fun r => polyFilterRow O p r && tagCombined (colsOf g) ts r.2)

/-- `reset_index` + `rename(columns={"index": "unique_id"})`: the former
index becomes the first `unique_id` column and the index becomes the row
position. -/
def resetIndexRows (kept : List Row) : GDF :=
  kept.enum.map (fun ir => (CellVal.n ir.1, ("unique_id", ir.2.1) :: ir.2.2))

/-- `_filter_gdf_by_polygon_and_tags`: an empty table is returned unchanged;
otherwise filter, drop all-null columns (identity here), and re-key. -/
def filterGdf (O : Oracles) (g : GDF) (p : Option Geom) (ts : Option TagsSpec) : GDF :=
  if g.isEmpty then g else resetIndexRows (filterRowsKept O g p ts)

/-- Whether a row's geometry passes the validity predicate (a row without a
geometry cell is left untouched by the repair). -/
def rowIsValid (O : Oracles) (r : Row) : Bool :=
  match r.2.lookup "geometry" with
  | some (.geom gm) => O.isValid gm
  | _ => true

/-- The repair of one row: replace an invalid geometry with its zero-buffer,
leaving everything else untouched. -/
def repairRow (O : Oracles) (r : Row) : Row :=
  match r.2.lookup "geometry" with
  | some (.geom gm) =>
    if O.isValid gm then r else (r.1, dset r.2 "geometry" (.geom (O.buffer0 gm)))
  | _ => r

/-- `_buffer_invalid_geometries`: an empty table is returned unchanged;
otherwise apply the zero-buffer repair to every invalid row. -/
def bufferInvalid (O : Oracles) (g : GDF) : GDF :=
  if g.isEmpty then g else g.map (repairRow O)

/-- One element's contribution to the untagged-element id set: non-node
elements whose tag map is absent or empty are recorded (set insertion). -/
def untaggedStep (acc : List String) (el : Element) : List String :=
  if el.etype ≠ "node" ∧ (el.tags = none ∨ el.tags = some []) then
    (if uniqueId el ∈ acc then acc else acc ++ [uniqueId el])
  else acc

/-- The untagged-element id set of a batch.  The source accumulates this set
inside the element loop; it depends only on the element sequence. -/
def untaggedIds (elements : List Element) : List String :=
  elements.foldl untaggedStep []

/-- Dict assignment for the geometry table (`geometries[unique_id] = d`). -/
def gset : List (String × Dict) → String → Dict → List (String × Dict)
  | [], k, v => [(k, v)]
  | (k0, v0) :: rest, k, v =>
    if k0 = k then (k, v) :: rest else (k0, v0) :: gset rest k v

/-- The mutable state of `_create_gdf`'s element loop. -/
structure BuildState where
  coords : Coords
  geoms : List (String × Dict)
  untagged : List String
deriving DecidableEq, Repr

/-- One iteration of `_create_gdf`'s element loop.  Nodes always populate
the Coordinate Table and produce a Point record only when tagged; ways are
parsed (their parse errors propagate); relations are parsed only when their
tags declare `type=multipolygon` — and a relation without a `"tags"` key
crashes on `element.get("tags").get("type")` with an `AttributeError`. -/
def createStep (O : Oracles) (pf : PFTable) (st : BuildState) (el : Element) :
    Except PyErr BuildState :=
  let uid := uniqueId el
  let unt := untaggedStep st.untagged el
  if el.etype = "node" then
    let coords2 := cset st.coords el.id ⟨el.lon, el.lat⟩
    let geoms2 := match el.tags with
      | some (_ :: _) => gset st.geoms uid (parseNodeToPoint el)
      | _ => st.geoms
    .ok ⟨coords2, geoms2, unt⟩
  else if el.etype = "way" then
    match parseWay el st.coords pf with
    | .error e => .error e
    | .ok d => .ok ⟨st.coords, gset st.geoms uid d, unt⟩
  else if el.etype = "relation" then
    match el.tags with
    | none => .error .attributeError
    | some ts =>
      if ts.lookup "type" = some "multipolygon" then
        match parseRelation O el st.geoms with
        | .error e => .error e
        | .ok d => .ok ⟨st.coords, gset st.geoms uid d, unt⟩
      else .ok ⟨st.coords, st.geoms, unt⟩
  else .ok ⟨st.coords, st.geoms, unt⟩

/-- The final row mask of `_create_gdf`: drop rows whose geometry is missing
or empty. -/
def rowGeomNonEmpty (r : Row) : Bool :=
  match r.2.lookup "geometry" with
  | some (.geom g) => !g.isEmpty
  | _ => false

/-- `_create_gdf`: raise on an empty element batch; run the element loop;
pop the untagged ids; build the table; repair invalid geometries; filter by
polygon and tags; drop missing/empty geometries. -/
def createGdf (O : Oracles) (pf : PFTable) (elements : List Element)
    (p : Option Geom) (ts : Option TagsSpec) : Except PyErr GDF :=
  if elements.isEmpty then .error .emptyOverpass
  else
    match elements.foldlM (createStep O pf) ⟨[], [], []⟩ with
    | .error e => .error e
    | .ok st =>
      let geomsFinal := st.geoms.filter (fun kv => decide (kv.1 ∉ st.untagged))
      let gdf0 : GDF := geomsFinal.map (fun kv => (CellVal.s kv.1, kv.2))
      let gdf1 := bufferInvalid O gdf0
      let gdf2 := filterGdf O gdf1 p ts
      .ok (gdf2.filter rowGeomNonEmpty)

/-- A trivial instantiation of the external primitives, used to evaluate the
embedding on concrete inputs: an empty line merge, no polygonization, no
containment, a difference that returns its left operand, identity repair,
everything valid, everything intersecting. -/
def O0 : Oracles :=
  ⟨fun _ => .multiLineString [], fun _ => [], fun _ _ => false,
   fun a _ => .ok a, id, fun _ => true, fun _ _ => true⟩

/-! ### Concrete instances used by the claim theorems -/

/-- Oracles whose difference always raises a topology error (and whose
containment test always holds), exhibiting the uncaught retry failure. -/
def O3 : Oracles :=
  ⟨fun _ => .multiLineString [], fun _ => [], fun _ _ => true,
   fun _ _ => .error (), id, fun _ => true, fun _ _ => true⟩

/-- A concrete outer shell. -/
def polyC3o : Poly := ⟨[⟨0, 0⟩, ⟨4, 0⟩, ⟨4, 4⟩, ⟨0, 0⟩], []⟩

/-- A concrete inner hole candidate. -/
def polyC3i : Poly := ⟨[⟨1, 1⟩, ⟨2, 1⟩, ⟨2, 2⟩, ⟨1, 1⟩], []⟩

/-- A closed way (building) referencing node 2, which is missing from the
Coordinate Table below. -/
def elC1 : Element := ⟨"way", 7, some [("building", "yes")], 0, 0, [1, 2, 3, 1], []⟩

/-- An open way referencing the same missing node 2. -/
def elC1open : Element := ⟨"way", 8, some [("highway", "residential")], 0, 0, [1, 2], []⟩

/-- A Coordinate Table without node 2. -/
def coordsC1 : Coords := [(1, ⟨0, 0⟩), (3, ⟨1, 1⟩)]

/-- A one-entry rule table making `building` an `all`-mode polygon key. -/
def pfC1 : PFTable := [("building", ⟨PFMode.all, []⟩)]

/-- A relation element without a `"tags"` key. -/
def relC5a : Element := ⟨"relation", 3, none, 0, 0, [], []⟩

/-- A relation element with an empty tag map. -/
def relC5b : Element := ⟨"relation", 4, some [], 0, 0, [], []⟩

/-- A concrete valid member-way polygon. -/
def polyC2 : Poly := ⟨[⟨0, 0⟩, ⟨1, 0⟩, ⟨1, 1⟩, ⟨0, 0⟩], []⟩

/-- The geometry record of way 2, a closed-ring outer Polygon. -/
def wayDictC2 : Dict :=
  [("osmid", .n 2), ("element_type", .s "way"), ("nodes", .nl [1, 2, 3, 1]),
   ("geometry", .geom (.polygon polyC2))]

/-- A multipolygon relation whose member way 1 is missing from the geometry
table and whose member way 2 is present and valid. -/
def relC2 : Element :=
  ⟨"relation", 9, some [("type", "multipolygon")], 0, 0, [],
   [⟨"way", 1, "outer"⟩, ⟨"way", 2, "outer"⟩]⟩

/-- A multipolygon relation with a single member way that is absent from an
empty geometry table. -/
def relC2w : Element :=
  ⟨"relation", 10, some [("type", "multipolygon")], 0, 0, [], [⟨"way", 5, "outer"⟩]⟩

/-- The geometry record of the single outer member way of `relC9`. -/
def wayDictC9 : Dict :=
  [("osmid", .n 6), ("element_type", .s "way"), ("nodes", .nl [4, 5, 6, 4]),
   ("geometry", .geom (.polygon ⟨[⟨0, 0⟩, ⟨2, 0⟩, ⟨0, 2⟩, ⟨0, 0⟩], []⟩))]

/-- A multipolygon relation with exactly one outer member way. -/
def relC9 : Element :=
  ⟨"relation", 11, some [("type", "multipolygon")], 0, 0, [], [⟨"way", 6, "outer"⟩]⟩

/-- A one-row table used for the C7 counterexample. -/
def gC7 : GDF :=
  [(.s "node/1", [("amenity", .s "cafe"), ("geometry", .geom (.point ⟨20, 10⟩))])]

/-- A one-row table used for the C7 witness. -/
def gC7w : GDF :=
  [(.s "node/2", [("shop", .s "bakery"), ("geometry", .geom (.point ⟨3, 4⟩))])]

/-- A one-row table used for the C10 counterexample. -/
def gC10 : GDF :=
  [(.s "node/1", [("amenity", .s "cafe"), ("geometry", .geom (.point ⟨1, 2⟩))])]

/-- A one-row table used for the C10 witness. -/
def gC10w : GDF :=
  [(.s "way/8", [("landuse", .s "forest"),
    ("geometry", .geom (.lineString [⟨0, 0⟩, ⟨1, 1⟩]))])]

/-- A tagged node element for the C8 witness. -/
def nodeC8 : Element := ⟨"node", 1, some [("amenity", "cafe")], 10, 20, [], []⟩

/-- The single row `createGdf` builds from the tagged node above. -/
def rowC8 : Row :=
  (.n 0,
   [("unique_id", .s "node/1"), ("osmid", .n 1), ("element_type", .s "node"),
    ("amenity", .s "cafe"), ("geometry", .geom (.point ⟨20, 10⟩))])

/-- The table `createGdf` builds from the single tagged node above. -/
def gdfC8 : GDF := [rowC8]

/-! ### Helper lemmas -/

/-- An or-accumulating fold is `List.any`. -/
theorem foldl_or_eq_any {α : Type} (f : α → Bool) (l : List α) (b : Bool) :
    l.foldl (fun acc a => acc || f a) b = (b || l.any f) := by
  induction l generalizing b with
  | nil => simp
  | cons a t ih => simp [List.foldl_cons, ih, Bool.or_assoc]

/-- A key is in an association list's key list iff its lookup succeeds. -/
theorem lookup_isSome_iff_mem_keys {β : Type} (l : List (String × β)) (k : String) :
    (l.lookup k).isSome = true ↔ k ∈ l.map Prod.fst := by
  induction l with
  | nil => simp [List.lookup]
  | cons p t ih =>
    obtain ⟨k0, v0⟩ := p
    by_cases h : k = k0
    · subst h
      simp [List.lookup]
    · have hbeq : (k == k0) = false := beq_eq_false_iff_ne.mpr h
      simp [List.lookup, hbeq, ih, h]

/-- A successful lookup's key is in the key list. -/
theorem mem_keys_of_lookup_eq_some {β : Type} {l : List (String × β)} {k : String}
    {v : β} (h : l.lookup k = some v) : k ∈ l.map Prod.fst := by
  rw [← lookup_isSome_iff_mem_keys, h]
  rfl

/-- Dict assignment stores the assigned value under the assigned key. -/
theorem lookup_dset_self (d : Dict) (k : String) (v : CellVal) :
    (dset d k v).lookup k = some v := by
  induction d with
  | nil => simp [dset, List.lookup]
  | cons p t ih =>
    obtain ⟨k0, v0⟩ := p
    by_cases h : k0 = k
    · subst h
      simp [dset, List.lookup]
    · have hbeq : (k == k0) = false := beq_eq_false_iff_ne.mpr (fun he => h he.symm)
      simp [dset, h, List.lookup, hbeq, ih]

/-- If some list element maps to `none`, the whole traversal is `none`. -/
theorem optionMapAll_eq_none {α β : Type} (f : α → Option β) (l : List α)
    (a : α) (ha : a ∈ l) (hf : f a = none) : optionMapAll f l = none := by
  induction l with
  | nil => cases ha
  | cons x t ih =>
    rcases List.mem_cons.mp ha with h | h
    · subst h
      simp [optionMapAll, hf]
    · cases hx : f x with
      | none => simp [optionMapAll, hx]
      | some vx => simp [optionMapAll, hx, ih h]

/-! ### Claim C4 -/

/-- Claim C4: a closed way is classified as a LineString whenever `area=no`
is present (regardless of other tags); otherwise it is a Polygon iff at
least one tag key shared with the rule table yields polygon under that
key's mode (`all`: any value; `blocklist`: value not in the key's value
set; `passlist`: value in the key's value set), and a LineString when there
are no shared keys or every shared key yields line. -/
theorem c4_closed_way_classification (otags : Option (List (String × String)))
    (pf : PFTable) :
    closedWayIsPolygon otags pf = true ↔
      ∃ tags, otags = some tags ∧ tags.lookup "area" ≠ some "no" ∧
        ∃ k v rule, tags.lookup k = some v ∧ pf.lookup k = some rule ∧
          (match rule.mode with
           | PFMode.all => True
           | PFMode.blocklist => v ∉ rule.values
           | PFMode.passlist => v ∈ rule.values) := by
  cases otags with
  | none => simp [closedWayIsPolygon]
  | some tags =>
    by_cases harea : tags.lookup "area" = some "no"
    · simp [closedWayIsPolygon, harea]
    · rw [closedWayIsPolygon]
      rw [if_neg harea, foldl_or_eq_any]
      simp only [Bool.false_or, List.any_eq_true, List.mem_filter, List.mem_dedup]
      constructor
      · rintro ⟨k, ⟨hkmem, hkpf⟩, hstep⟩
        refine ⟨tags, rfl, harea, k, ?_⟩
        rw [yieldsPolygonStep] at hstep
        cases hpf : pf.lookup k with
        | none => rw [hpf] at hstep; simp at hstep
        | some rule =>
          cases htg : tags.lookup k with
          | none => rw [hpf, htg] at hstep; simp at hstep
          | some v =>
            rw [hpf, htg] at hstep
            refine ⟨v, rule, rfl, rfl, ?_⟩
            obtain ⟨mode, values⟩ := rule
            cases mode <;> simp_all
      · rintro ⟨tags2, heq, _, k, v, rule, htg, hpf, hmode⟩
        cases heq
        refine ⟨k, ⟨mem_keys_of_lookup_eq_some htg, by rw [hpf]; rfl⟩, ?_⟩
        rw [yieldsPolygonStep, hpf, htg]
        obtain ⟨mode, values⟩ := rule
        cases mode <;> simp_all

/-! ### Claim C6 -/

/-- Claim C6: an empty outer-polygon bucket yields the empty-MultiPolygon
marker (no abort); exactly one shell-with-holes yields that single Polygon;
otherwise the geometry is a MultiPolygon over all resulting shells. -/
theorem c6_final_geometry_dispatch (O : Oracles) (outers inners : List Poly) :
    (outers = [] → subtract O outers inners = .ok (.multiPolygon []))
    ∧ (∀ l, holedPolys O outers inners = .ok l →
        (l.length = 1 → ∃ p, l = [p] ∧ subtract O outers inners = .ok (.polygon p))
        ∧ (l.length ≠ 1 → subtract O outers inners = .ok (.multiPolygon l))) := by
  constructor
  · rintro rfl
    rfl
  · intro l hl
    constructor
    · intro hlen
      match l, hlen with
      | [p], _ => exact ⟨p, rfl, by rw [subtract, hl]⟩
    · intro hlen
      rw [subtract, hl]
      match l, hlen with
      | [], _ => rfl
      | a :: b :: t, _ => rfl

/-- Witness for C6 at a concrete empty outer bucket. -/
theorem c6_witness : subtract O0 [] [] = .ok (.multiPolygon []) :=
  (c6_final_geometry_dispatch O0 [] []).1 rfl

/-! ### Claim C3 -/

/-- Counterexample to C3 as stated: when the zero-buffered retry of the
difference also fails, the shell is NOT kept un-holed — the topology error
propagates out of `_subtract_inner_polygons_from_outer_polygons`. -/
theorem c3_counterexample :
    subtract O3 [polyC3o] [polyC3i] = .error .topologicalError
    ∧ subtract O3 [polyC3o] [polyC3i] ≠ .ok (.polygon polyC3o) := by
  constructor
  · rfl
  · intro h
    have h2 : (Except.error PyErr.topologicalError : Except PyErr Geom)
        = .ok (.polygon polyC3o) := h
    exact Except.noConfusion h2

/-- Claim C3 (amended): a failed difference is retried exactly once with
both operands zero-buffered; the retry's outcome is final — a successful
retry replaces the shell, and a failing retry propagates the topology
error (the shell is not kept and the relation's processing aborts). -/
theorem c3_retry_once_then_propagate (O : Oracles) (p q : Poly)
    (hw : O.within (.polygon q) (.polygon p) = true)
    (h1 : O.difference (.polygon p) (.polygon q) = .error ()) :
    (∀ g, O.difference (O.buffer0 (.polygon p)) (O.buffer0 (.polygon q)) = .ok g →
      subtract O [p] [q] = .ok (match g with
        | .polygon r => .polygon r
        | .multiPolygon [r] => .polygon r
        | .multiPolygon rs => .multiPolygon rs
        | _ => .multiPolygon []))
    ∧ (O.difference (O.buffer0 (.polygon p)) (O.buffer0 (.polygon q)) = .error () →
      subtract O [p] [q] = .error .topologicalError) := by
  constructor
  · intro g h2
    rw [subtract, holedPolys]
    simp only [List.foldlM_cons, List.foldlM_nil, subtractOuter, subtractStep, hw, h1, h2,
      if_pos, bind, Except.bind]
    cases g with
    | point c => rfl
    | lineString cs => rfl
    | multiLineString parts => rfl
    | polygon r => rfl
    | multiPolygon rs =>
      match rs with
      | [] => rfl
      | [r] => rfl
      | a :: b :: t => rfl
  · intro h2
    rw [subtract, holedPolys]
    simp only [List.foldlM_cons, List.foldlM_nil, subtractOuter, subtractStep, hw, h1, h2,
      if_pos, bind, Except.bind]

/-- Witness for C3's amended statement with the always-failing difference. -/
theorem c3_witness : subtract O3 [polyC3o] [polyC3i] = .error .topologicalError :=
  (c3_retry_once_then_propagate O3 polyC3o polyC3i rfl rfl).2 rfl

/-! ### Claim C1 -/

/-- Claim C1 (code bug): a closed way referencing a node id absent from the
Coordinate Table raises an uncaught `KeyError` (the closed-way branches
catch only `ValueError`), aborting the batch, while the same missing node
in an open way is caught and degraded to the Empty LineString. -/
theorem c1_closed_way_missing_node_raises :
    parseWay elC1 coordsC1 pfC1 = .error (.keyError 2)
    ∧ (parseWay elC1open coordsC1 pfC1).map (fun d => d.lookup "geometry")
        = .ok (some (.geom (.lineString []))) := by
  constructor
  · rfl
  · rfl

/-! ### Claim C5 -/

/-- Counterexample to C5 as stated: a batch whose relation element has no
tags mapping raises `AttributeError` (from `element.get("tags").get("type")`)
instead of continuing. -/
theorem c5_counterexample :
    createGdf O0 [] [relC5a] none none = .error .attributeError := by
  rfl

/-- Claim C5 (amended): a relation element with an EMPTY tags mapping does
not raise — its unique id is recorded in the untagged set, it is not
processed for geometry (an empty tag map cannot declare
`type=multipolygon`, so no geometry record is created for it) and hence is
excluded from the output; a relation element with an ABSENT tags mapping
raises `AttributeError`, aborting the batch. -/
theorem c5_relation_tags_handling (O : Oracles) (pf : PFTable) (st : BuildState)
    (el : Element) (h : el.etype = "relation") :
    (el.tags = none → createStep O pf st el = .error .attributeError)
    ∧ (el.tags = some [] → createStep O pf st el =
        .ok ⟨st.coords, st.geoms, untaggedStep st.untagged el⟩) := by
  constructor
  · intro ht
    simp [createStep, h, ht]
  · intro ht
    simp [createStep, h, ht, List.lookup]

/-- Witness for C5's amended statement on a concrete empty-tag relation. -/
theorem c5_witness :
    createStep O0 [] ⟨[], [], []⟩ relC5b = .ok ⟨[], [], ["relation/4"]⟩ := by
  rw [(c5_relation_tags_handling O0 [] ⟨[], [], []⟩ relC5b rfl).2 rfl]
  rfl

/-! ### Claim C2 -/

/-- Counterexample to C2 as stated: with member way 1 missing and member
way 2 a valid outer Polygon, the relation's geometry is the EMPTY
MultiPolygon — the missing member is not skipped and the remaining valid
member is not used. -/
theorem c2_counterexample :
    (parseRelation O0 relC2 [("way/2", wayDictC2)]).map (fun d => d.lookup "geometry")
      = .ok (some (.geom (.multiPolygon [])))
    ∧ Geom.multiPolygon [] ≠ Geom.polygon polyC2 := by
  constructor
  · rfl
  · intro h
    exact Geom.noConfusion h

/-- Claim C2 (amended): a member way missing from the geometry table
degrades the WHOLE relation — its geometry becomes the empty MultiPolygon,
no members are used (though the batch continues); and a member way whose
geometry is present — even the Empty Polygon — is not skipped: an
outer-role Polygon member is appended to the outer-polygon bucket
unconditionally. -/
theorem c2_missing_member_degrades_whole (O : Oracles) (el : Element)
    (geoms geoms2 : List (String × Dict)) :
    ((∃ m ∈ el.members, m.mtype = "way" ∧ geoms.lookup (wayKey m.ref) = none) →
      parseRelation O el geoms
        = .ok (dset (relationBase el) "geometry" (.geom (.multiPolygon []))))
    ∧ (∀ acc m d pl, m.mtype = "way" → m.role = "outer" →
        geoms2.lookup (wayKey m.ref) = some d →
        d.lookup "geometry" = some (.geom (.polygon pl)) →
        bucketStep geoms2 acc m
          = .ok ⟨acc.outerPolys ++ [pl], acc.innerPolys, acc.outerLines, acc.innerLines⟩) := by
  constructor
  · rintro ⟨m, hmem, hway, hmiss⟩
    have href : m.ref ∈ (el.members.filter (fun m2 => m2.mtype = "way")).map Member.ref := by
      exact List.mem_map_of_mem Member.ref
        (List.mem_filter.mpr ⟨hmem, by simp [hway]⟩)
    have hall : optionMapAll (fun rf => geoms.lookup (wayKey rf))
        ((el.members.filter (fun m2 => m2.mtype = "way")).map Member.ref) = none :=
      optionMapAll_eq_none _ _ _ href hmiss
    rw [parseRelation, hall]
  · intro acc m d pl hway hrole hlook hgeom
    have hb : (m.role == "outer") = true := by
      rw [hrole]
      rfl
    rw [bucketStep, if_pos hway, if_pos (Or.inl hrole), hlook]
    simp only [hgeom, hb]

/-- Witness for C2's amended statement: the missing-member early return and
the bucketing of a present outer Polygon member. -/
theorem c2_witness :
    parseRelation O0 relC2w []
      = .ok (dset (relationBase relC2w) "geometry" (.geom (.multiPolygon [])))
    ∧ bucketStep [("way/2", wayDictC2)] ⟨[], [], [], []⟩ ⟨"way", 2, "outer"⟩
      = .ok ⟨[polyC2], [], [], []⟩ := by
  constructor
  · exact (c2_missing_member_degrades_whole O0 relC2w [] []).1
      ⟨⟨"way", 5, "outer"⟩, by simp [relC2w], rfl, rfl⟩
  · exact (c2_missing_member_degrades_whole O0 relC2w [] [("way/2", wayDictC2)]).2
      ⟨[], [], [], []⟩ ⟨"way", 2, "outer"⟩ wayDictC2 polyC2 rfl rfl rfl rfl

/-! ### Claim C9 -/

/-- Claim C9: a multipolygon relation whose members are exactly one outer
way already classified as a Polygon, with no inner ways, gets exactly that
member way's polygon back as its assembled geometry (exact equality in
this model, which is stronger than identity up to floating-point
tolerance).  The line-merge hypothesis records that merging an empty
fragment list yields an empty merge result. -/
theorem c9_single_outer_roundtrip (O : Oracles) (el : Element)
    (geoms : List (String × Dict)) (ref : Nat) (d : Dict) (pl : Poly) (ns : List Nat)
    (hm : el.members = [⟨"way", ref, "outer"⟩])
    (hd : geoms.lookup (wayKey ref) = some d)
    (hg : d.lookup "geometry" = some (.geom (.polygon pl)))
    (hn : d.lookup "nodes" = some (.nl ns))
    (hlm : O.linemerge [] = .multiLineString []) :
    (parseRelation O el geoms).map (fun out => out.lookup "geometry")
      = .ok (some (.geom (.polygon pl))) := by
  simp +decide [parseRelation, relationBase, hm, assembleComponentPolys, bucketStep,
    lineContribution, subtract, holedPolys, subtractOuter, optionMapAll,
    hd, hg, hn, hlm, lookup_dset_self, pure, Except.pure, Except.map,
    List.foldlM, bind, Except.bind]

/-- Witness for C9 on a concrete single-outer-way relation. -/
theorem c9_witness :
    (parseRelation O0 relC9 [("way/6", wayDictC9)]).map (fun out => out.lookup "geometry")
      = .ok (some (.geom (.polygon ⟨[⟨0, 0⟩, ⟨2, 0⟩, ⟨0, 2⟩, ⟨0, 0⟩], []⟩))) :=
  c9_single_outer_roundtrip O0 relC9 [("way/6", wayDictC9)] 6 wayDictC9
    ⟨[⟨0, 0⟩, ⟨2, 0⟩, ⟨0, 2⟩, ⟨0, 0⟩], []⟩ [4, 5, 6, 4] rfl rfl rfl rfl rfl

/-! ### Claim C7 -/

/-- The combined tag filter holds iff the spec is absent, empty, or some
requested key that exists as a column matches the row's cell. -/
theorem tagCombined_eq_true_iff (cols : List String) (ts : Option TagsSpec) (cells : Dict) :
    tagCombined cols ts cells = true ↔
      (match ts with
       | none => True
       | some l => l = [] ∨ ∃ kv ∈ l, kv.1 ∈ cols ∧ rowMatchesKey cells kv.1 kv.2 = true) := by
  cases ts with
  | none => simp [tagCombined]
  | some l =>
    by_cases hl : l.isEmpty
    · simp [tagCombined, hl, List.isEmpty_iff.mp hl]
    · have hlne : l ≠ [] := fun he => hl (by rw [he]; rfl)
      rw [tagCombined, if_neg hl, foldl_or_eq_any]
      simp [List.any_eq_true, List.mem_filter, hlne, and_assoc]

/-- Claim C7 (amended): `_filter_gdf_by_polygon_and_tags` retains a row iff
it passes the spatial filter AND — when a non-empty tag spec is supplied —
matches at least one requested key under that key's mode (`True`: non-null
cell; string: exact equality; list: membership), requested keys absent
from the table's columns being ignored; an absent OR EMPTY tag spec passes
every row; the surviving rows are then re-keyed in order. -/
theorem c7_filter_retention (O : Oracles) (g : GDF) (p : Option Geom)
    (ts : Option TagsSpec) :
    (∀ r, r ∈ filterRowsKept O g p ts ↔
      r ∈ g ∧ polyFilterRow O p r = true ∧
        (match ts with
         | none => True
         | some l => l = [] ∨ ∃ kv ∈ l, kv.1 ∈ colsOf g ∧ rowMatchesKey r.2 kv.1 kv.2 = true))
    ∧ (g ≠ [] → filterGdf O g p ts = resetIndexRows (filterRowsKept O g p ts)) := by
  constructor
  · intro r
    rw [filterRowsKept, List.mem_filter, Bool.and_eq_true,
      tagCombined_eq_true_iff (colsOf g) ts r.2]
  · intro hg
    rw [filterGdf, if_neg (fun hcontra => hg (List.isEmpty_iff.mp hcontra))]

/-- Counterexample to C7 as stated: under the supplied EMPTY tag spec the
row is retained even though it matches no requested key (the code treats a
falsy spec as pass-all), so "retained iff matches at least one requested
key" fails. -/
theorem c7_counterexample :
    (CellVal.s "node/1",
      [("amenity", CellVal.s "cafe"), ("geometry", CellVal.geom (.point ⟨20, 10⟩))])
        ∈ filterRowsKept O0 gC7 none (some [])
    ∧ ¬ ∃ kv ∈ ([] : TagsSpec), kv.1 ∈ colsOf gC7
          ∧ rowMatchesKey [("amenity", CellVal.s "cafe"),
              ("geometry", CellVal.geom (.point ⟨20, 10⟩))] kv.1 kv.2 = true := by
  constructor
  · decide
  · rintro ⟨kv, hkv, -⟩
    cases hkv

/-- Witness for C7's amended statement on a concrete non-empty table. -/
theorem c7_witness :
    filterGdf O0 gC7w none (some [("shop", .tru)])
      = resetIndexRows (filterRowsKept O0 gC7w none (some [("shop", .tru)])) :=
  (c7_filter_retention O0 gC7w none (some [("shop", .tru)])).2 (by decide)

/-! ### Claim C10 -/

/-- Repairing a row that passes the validity predicate changes nothing. -/
theorem repairRow_of_valid (O : Oracles) (r : Row) (h : rowIsValid O r = true) :
    repairRow O r = r := by
  cases hlook : r.2.lookup "geometry" with
  | none => simp [repairRow, hlook]
  | some v =>
    cases v with
    | geom gm =>
      have hv : O.isValid gm = true := by simpa [rowIsValid, hlook] using h
      simp [repairRow, hlook, hv]
    | s x => simp [repairRow, hlook]
    | n x => simp [repairRow, hlook]
    | nl x => simp [repairRow, hlook]
    | nlll x => simp [repairRow, hlook]

/-- Repair is the identity on a table whose rows are all valid. -/
theorem bufferInvalid_of_valid (O : Oracles) (g : GDF)
    (h : ∀ r ∈ g, rowIsValid O r = true) : bufferInvalid O g = g := by
  rw [bufferInvalid]
  split
  · rfl
  · calc g.map (repairRow O)
        = g.map id := List.map_congr_left (fun r hr => repairRow_of_valid O r (h r hr))
      _ = g := List.map_id g

/-- Claim C10 (amended): on a non-empty, already-valid, already-filtered
table (every row passes both filters again), repair is a no-op but the
second filter pass is NOT: it retains every row in order and re-keys the
table, prepending a fresh `unique_id` column holding the former index and
replacing the index with row positions. -/
theorem c10_second_pass_rekeys (O : Oracles) (g : GDF) (p : Option Geom)
    (ts : Option TagsSpec) (hne : g ≠ [])
    (hvalid : ∀ r ∈ g, rowIsValid O r = true)
    (hpass : ∀ r ∈ g, (polyFilterRow O p r && tagCombined (colsOf g) ts r.2) = true) :
    filterGdf O (bufferInvalid O g) p ts = resetIndexRows g := by
  rw [bufferInvalid_of_valid O g hvalid]
  rw [filterGdf, if_neg (fun hcontra => hne (List.isEmpty_iff.mp hcontra))]
  rw [filterRowsKept, List.filter_eq_self.mpr hpass]

/-- Counterexample to C10 as stated: take the (valid, already-filtered)
output of one filter pass; repairing and filtering it a second time with
the same (absent) polygon and tag arguments yields a DIFFERENT table — the
re-keying adds another `unique_id` column — so the second pass is not a
no-op. -/
theorem c10_counterexample :
    filterGdf O0 (bufferInvalid O0 (filterGdf O0 gC10 none none)) none none
      ≠ filterGdf O0 gC10 none none := by
  decide

/-- Witness for C10's amended statement on a concrete valid table. -/
theorem c10_witness :
    filterGdf O0 (bufferInvalid O0 gC10w) none none = resetIndexRows gC10w :=
  c10_second_pass_rekeys O0 gC10w none none (by decide) (by decide) (by decide)

/-! ### Claim C8 -/

/-- A successful loop step extends the untagged set by exactly the
element's contribution. -/
theorem createStep_untagged (O : Oracles) (pf : PFTable) (st st2 : BuildState)
    (el : Element) (h : createStep O pf st el = .ok st2) :
    st2.untagged = untaggedStep st.untagged el := by
  simp only [createStep] at h
  repeat' split at h
  all_goals cases h
  all_goals rfl

/-- A successful loop run's untagged set is the fold of the per-element
contributions. -/
theorem foldlM_createStep_untagged (O : Oracles) (pf : PFTable)
    (elements : List Element) (st st2 : BuildState)
    (h : elements.foldlM (createStep O pf) st = .ok st2) :
    st2.untagged = elements.foldl untaggedStep st.untagged := by
  induction elements generalizing st with
  | nil =>
    simp only [List.foldlM_nil, pure, Except.pure] at h
    cases h
    rfl
  | cons el t ih =>
    rw [List.foldlM_cons] at h
    cases hstep : createStep O pf st el with
    | error e =>
      rw [hstep] at h
      simp only [bind, Except.bind] at h
      cases h
    | ok st1 =>
      rw [hstep] at h
      simp only [bind, Except.bind] at h
      rw [List.foldl_cons, ← createStep_untagged O pf st st1 el hstep]
      exact ih st1 h

/-- Repairing a row preserves its index label. -/
theorem repairRow_fst (O : Oracles) (r : Row) : (repairRow O r).1 = r.1 := by
  rw [repairRow]
  split
  · split
    · rfl
    · rfl
  · rfl

/-- Every row of the repaired table shares its index label with a row of
the input table. -/
theorem mem_bufferInvalid (O : Oracles) (g : GDF) (r : Row)
    (h : r ∈ bufferInvalid O g) : ∃ r0 ∈ g, r.1 = r0.1 := by
  rw [bufferInvalid] at h
  split at h
  · exact ⟨r, h, rfl⟩
  · obtain ⟨r0, hr0, heq⟩ := List.mem_map.mp h
    exact ⟨r0, hr0, by rw [← heq, repairRow_fst]⟩

/-- A pair in an enumeration has its payload in the underlying list. -/
theorem snd_mem_of_mem_enumFrom {α : Type} {l : List α} {n : Nat} {ia : Nat × α}
    (h : ia ∈ l.enumFrom n) : ia.2 ∈ l := by
  induction l generalizing n with
  | nil => cases h
  | cons x t ih =>
    rw [List.enumFrom] at h
    rcases List.mem_cons.mp h with h1 | h1
    · rw [h1]
      exact List.mem_cons_self x t
    · exact List.mem_cons_of_mem x (ih h1)

/-- Every re-keyed row comes from a kept row, with the former index
prepended under `unique_id`. -/
theorem mem_resetIndexRows (kept : List Row) (r : Row) (h : r ∈ resetIndexRows kept) :
    ∃ i r0, r0 ∈ kept ∧ r = (CellVal.n i, ("unique_id", r0.1) :: r0.2) := by
  rw [resetIndexRows] at h
  obtain ⟨ir, hir, heq⟩ := List.mem_map.mp h
  refine ⟨ir.1, ir.2, ?_, heq.symm⟩
  rw [List.enum] at hir
  exact snd_mem_of_mem_enumFrom hir

/-- Every row of a filtered table carries a source row's index label as its
`unique_id` cell. -/
theorem mem_filterGdf_unique_id (O : Oracles) (g : GDF) (p : Option Geom)
    (ts : Option TagsSpec) (r : Row) (h : r ∈ filterGdf O g p ts) :
    ∃ r0 ∈ g, r.2.lookup "unique_id" = some r0.1 := by
  rw [filterGdf] at h
  split at h
  next hcond =>
    rw [List.isEmpty_iff.mp hcond] at h
    cases h
  next =>
    obtain ⟨i, r0, hr0, heq⟩ := mem_resetIndexRows _ r h
    refine ⟨r0, (List.mem_filter.mp hr0).1, ?_⟩
    rw [heq]
    simp [List.lookup]

/-- Claim C8: every row of a successfully created table has a non-null,
non-empty geometry, and its `unique_id` never belongs to a non-node element
whose tags were absent or empty (those records are dropped, not nulled). -/
theorem c8_rows_nonempty_and_tagged (O : Oracles) (pf : PFTable)
    (elements : List Element) (p : Option Geom) (ts : Option TagsSpec) (gdf : GDF)
    (h : createGdf O pf elements p ts = .ok gdf) :
    ∀ r ∈ gdf,
      (∃ g, r.2.lookup "geometry" = some (.geom g) ∧ g.isEmpty = false)
      ∧ (∃ uid, r.2.lookup "unique_id" = some (.s uid) ∧ uid ∉ untaggedIds elements) := by
  rw [createGdf] at h
  by_cases hemp : elements.isEmpty
  · rw [if_pos hemp] at h
    cases h
  · rw [if_neg hemp] at h
    cases hfold : elements.foldlM (createStep O pf) ⟨[], [], []⟩ with
    | error e =>
      rw [hfold] at h
      cases h
    | ok st =>
      simp only [hfold] at h
      injection h with h
      subst h
      intro r hr
      obtain ⟨hr2, hmask⟩ := List.mem_filter.mp hr
      constructor
      · rw [rowGeomNonEmpty] at hmask
        cases hlook : r.2.lookup "geometry" with
        | none =>
          rw [hlook] at hmask
          cases hmask
        | some v =>
          cases v with
          | geom g0 =>
            rw [hlook] at hmask
            exact ⟨g0, rfl, by simpa using hmask⟩
          | s x => rw [hlook] at hmask; cases hmask
          | n x => rw [hlook] at hmask; cases hmask
          | nl x => rw [hlook] at hmask; cases hmask
          | nlll x => rw [hlook] at hmask; cases hmask
      · obtain ⟨r0, hr0, hlookup⟩ := mem_filterGdf_unique_id O _ p ts r hr2
        obtain ⟨r1, hr1, hfst⟩ := mem_bufferInvalid O _ r0 hr0
        obtain ⟨kv, hkv, heq⟩ := List.mem_map.mp hr1
        obtain ⟨hkvg, hkvdec⟩ := List.mem_filter.mp hkv
        have hnot : kv.1 ∉ st.untagged := of_decide_eq_true hkvdec
        have huntag : st.untagged = untaggedIds elements := by
          rw [untaggedIds]
          exact foldlM_createStep_untagged O pf elements ⟨[], [], []⟩ st hfold
        refine ⟨kv.1, ?_, ?_⟩
        · rw [hlookup, hfst, ← heq]
        · rw [← huntag]
          exact hnot

/-- Witness for C8 on a concrete successful one-node batch. -/
theorem c8_witness :
    (∃ g, rowC8.2.lookup "geometry" = some (.geom g) ∧ g.isEmpty = false)
    ∧ (∃ uid, rowC8.2.lookup "unique_id" = some (.s uid) ∧ uid ∉ untaggedIds [nodeC8]) :=
  c8_rows_nonempty_and_tagged O0 [] [nodeC8] none none gdfC8 rfl rowC8
    (List.mem_cons_self rowC8 [])

end Osmnx
